import Mathlib

/-!
# DotWave.js — verification of the particle simulation and rendering core

Shallow embedding of `src/dotwave.js` (the `DotWave` constructor's defaults,
`_mergeOptions`, `_createDots`, the per-dot body of `_animate`, `_lerpAngle`,
`_drawDot`'s state effect, and `_getRGBA`).  JavaScript numbers are modelled
as real numbers (`ℝ`); `Math.random()` outcomes are passed in explicitly as
values in `[0,1)`; JavaScript strings are modelled as Lean `String`s with
the JS string primitives (`startsWith`, one-occurrence `replace`,
`substring`, `charAt`, `toLowerCase`) defined on the underlying character
lists.  `while` loops over reals (`_lerpAngle`'s wrapping) take an explicit
fuel bounding the number of iterations.
-/

namespace DotWave

/-- The configuration record: one field per key of `this.defaults` in the
`DotWave` constructor (src/dotwave.js lines 15-38), minus `container`,
which is a DOM reference.  `numDots` is an integer so that negative counts
can be expressed. -/
structure Options where
  numDots : ℤ
  dotColor : String
  backgroundColor : String
  dotMinSize : ℝ
  dotMaxSize : ℝ
  dotMinOpacity : ℝ
  dotMaxOpacity : ℝ
  influenceRadius : ℝ
  influenceStrength : ℝ
  randomFactor : ℝ
  friction : ℝ
  maxSpeed : ℝ
  reactive : Bool
  zIndex : ℤ
  mouseSpeedDecay : ℝ
  maxMouseSpeed : ℝ
  dotStretch : Bool
  dotStretchMult : ℝ
  dotMaxStretch : ℝ
  rotSmoothing : Bool
  rotSmoothingIntensity : ℝ

/-- The numeric/boolean defaults of the `DotWave` constructor
(src/dotwave.js lines 15-38). -/
def defaultOptions : Options where
  numDots := 400
  dotColor := "white"
  backgroundColor := "black"
  dotMinSize := 1
  dotMaxSize := 3
  dotMinOpacity := 0.5
  dotMaxOpacity := 1
  influenceRadius := 100
  influenceStrength := 0.5
  randomFactor := 0.05
  friction := 0.97
  maxSpeed := 3
  reactive := true
  zIndex := -1
  mouseSpeedDecay := 0.85
  maxMouseSpeed := 15
  dotStretch := true
  dotStretchMult := 10
  dotMaxStretch := 20
  rotSmoothing := false
  rotSmoothingIntensity := 150

/-- One dot (src/dotwave.js `_createDots`, lines 212-234).  `currentAngle`
and `targetAngle` are `Option ℝ` because the JS object only carries those
fields when the corresponding features are enabled. -/
structure Dot where
  x : ℝ
  y : ℝ
  z : ℝ
  radius : ℝ
  alpha : ℝ
  vx : ℝ
  vy : ℝ
  speedMultiplier : ℝ
  currentAngle : Option ℝ
  targetAngle : Option ℝ

/-- The cursor state the step reads (`this.mouseX/Y`, `this.mouseSpeedX/Y`,
`this.isMouseOver`). -/
structure Mouse where
  mouseX : ℝ
  mouseY : ℝ
  mouseSpeedX : ℝ
  mouseSpeedY : ℝ
  isMouseOver : Bool

/-- One `Math.random()`-derived tuple for creating a dot: `z`, the two
position draws and the two velocity draws, each in `[0,1)`. -/
structure Draw where
  z : ℝ
  rx : ℝ
  ry : ℝ
  rvx : ℝ
  rvy : ℝ

/-- `_createDots` (src/dotwave.js lines 205-238): `numDots` dots with random
position, depth, depth-derived radius/alpha/speedMultiplier and random
initial velocity; angle fields only when stretching is enabled. -/
noncomputable def _createDots (o : Options) (width height : ℝ) (draw : ℕ → Draw) : List Dot :=
  (List.range o.numDots.toNat).map fun i =>
    let z := (draw i).z
    { x := (draw i).rx * width
      y := (draw i).ry * height
      z := z
      radius := o.dotMinSize + z * (o.dotMaxSize - o.dotMinSize)
      alpha := o.dotMinOpacity + z * (o.dotMaxOpacity - o.dotMinOpacity)
      vx := ((draw i).rvx - 0.5) * 1.5
      vy := ((draw i).rvy - 0.5) * 1.5
      speedMultiplier := 0.3 + z * 0.7
      currentAngle := if o.dotStretch then some 0 else none
      targetAngle := if o.dotStretch && o.rotSmoothing then some 0 else none }

/-- The cursor-influence phase of `_animate` (src/dotwave.js lines 460-476):
inside the influence radius, velocity gains mouse speed scaled by the linear
falloff, the dot's depth, the strength and `dt`. -/
noncomputable def applyInfluence (o : Options) (m : Mouse) (dt : ℝ) (d : Dot) : Dot :=
  if o.reactive && m.isMouseOver then
    let dx := m.mouseX - d.x
    let dy := m.mouseY - d.y
    let distanceSq := dx * dx + dy * dy
    if distanceSq < o.influenceRadius * o.influenceRadius then
      let distance := Real.sqrt distanceSq
      let influence := (1 - distance / o.influenceRadius) * d.z
      { d with
        vx := d.vx + m.mouseSpeedX * influence * o.influenceStrength * dt
        vy := d.vy + m.mouseSpeedY * influence * o.influenceStrength * dt }
    else d
  else d

/-- The random-jitter phase (src/dotwave.js lines 479-480); `r1`, `r2` are
the two `Math.random()` outcomes. -/
def applyJitter (o : Options) (dt r1 r2 : ℝ) (d : Dot) : Dot :=
  { d with
    vx := d.vx + (r1 - 0.5) * o.randomFactor * dt
    vy := d.vy + (r2 - 0.5) * o.randomFactor * dt }

/-- The friction phase (src/dotwave.js lines 443, 483-484): both velocity
components are multiplied by `friction ^ dt` (`Math.pow`). -/
noncomputable def applyFriction (o : Options) (dt : ℝ) (d : Dot) : Dot :=
  let friction := o.friction ^ dt
  { d with vx := d.vx * friction, vy := d.vy * friction }

/-- The speed clamp (src/dotwave.js lines 487-492): when the squared speed
exceeds `maxSpeed²`, both components are rescaled by
`maxSpeed / sqrt speedSq`. -/
noncomputable def applyClamp (o : Options) (d : Dot) : Dot :=
  let speedSq := d.vx * d.vx + d.vy * d.vy
  if speedSq > o.maxSpeed * o.maxSpeed then
    let scale := o.maxSpeed / Real.sqrt speedSq
    { d with vx := d.vx * scale, vy := d.vy * scale }
  else d

/-- The velocity part of one `_animate` iteration before the clamp:
cursor influence, then jitter, then friction (src/dotwave.js 460-484). -/
noncomputable def preClamp (o : Options) (m : Mouse) (dt r1 r2 : ℝ) (d : Dot) : Dot :=
  applyFriction o dt (applyJitter o dt r1 r2 (applyInfluence o m dt d))

/-- The whole velocity update of one `_animate` iteration: influence,
jitter, friction, clamp, in source order (src/dotwave.js 460-492). -/
noncomputable def velocityPhase (o : Options) (m : Mouse) (dt r1 r2 : ℝ) (d : Dot) : Dot :=
  applyClamp o (preClamp o m dt r1 r2 d)

/-- Position integration (src/dotwave.js lines 495-496):
`position += velocity * speedMultiplier * dt`. -/
def integrate (dt : ℝ) (d : Dot) : Dot :=
  { d with
    x := d.x + d.vx * d.speedMultiplier * dt
    y := d.y + d.vy * d.speedMultiplier * dt }

/-- One coordinate of the wraparound phase (src/dotwave.js lines 499-502):
two sequential `if`s, below `-50` teleports to `size + 50`, above
`size + 50` teleports to `-50`. -/
noncomputable def wrapCoord (size c : ℝ) : ℝ :=
  let c1 := if c < -50 then size + 50 else c
  if c1 > size + 50 then -50 else c1

/-- The wraparound phase on both axes (src/dotwave.js lines 499-502). -/
noncomputable def wrapDot (width height : ℝ) (d : Dot) : Dot :=
  { d with x := wrapCoord width d.x, y := wrapCoord height d.y }

/-- One full `_animate` update of one dot (src/dotwave.js lines 456-502):
velocity update, integration, wraparound. -/
noncomputable def animateDot (o : Options) (width height : ℝ) (m : Mouse)
    (dt r1 r2 : ℝ) (d : Dot) : Dot :=
  wrapDot width height (integrate dt (velocityPhase o m dt r1 r2 d))

/-- `_mergeOptions` (src/dotwave.js lines 145-151): iterate the keys of
`defaults` and take the user's value exactly when it is not `undefined`.
An options object is a partial map from key to value (`none` =
`undefined`); the defaults record is an association list. -/
def _mergeOptions (V : Type) (defaults : List (String × V))
    (options : String → Option V) : List (String × V) :=
  defaults.map fun kv => (kv.1, (options kv.1).getD kv.2)

/-- First wrapping loop of `_lerpAngle` (src/dotwave.js line 321):
`while (diff > Math.PI) diff -= 2 * Math.PI;`, with fuel bounding the
iteration count. -/
noncomputable def wrapDiffDown : ℕ → ℝ → ℝ
  | 0, d => d
  | n + 1, d => if d > Real.pi then wrapDiffDown n (d - 2 * Real.pi) else d

/-- Second wrapping loop of `_lerpAngle` (src/dotwave.js line 322):
`while (diff < -Math.PI) diff += 2 * Math.PI;`. -/
noncomputable def wrapDiffUp : ℕ → ℝ → ℝ
  | 0, d => d
  | n + 1, d => if d < -Real.pi then wrapDiffUp n (d + 2 * Real.pi) else d

/-- Third loop of `_lerpAngle` (src/dotwave.js line 328):
`while (result < 0) result += 2 * Math.PI;`. -/
noncomputable def wrapResLo : ℕ → ℝ → ℝ
  | 0, d => d
  | n + 1, d => if d < 0 then wrapResLo n (d + 2 * Real.pi) else d

/-- Fourth loop of `_lerpAngle` (src/dotwave.js line 329):
`while (result >= 2 * Math.PI) result -= 2 * Math.PI;`. -/
noncomputable def wrapResHi : ℕ → ℝ → ℝ
  | 0, d => d
  | n + 1, d => if d ≥ 2 * Real.pi then wrapResHi n (d - 2 * Real.pi) else d

/-- `_lerpAngle` (src/dotwave.js lines 316-332): the difference is wrapped
into `[-π, π]`, scaled by the factor, added to the current angle, and the
result wrapped into `[0, 2π)`. -/
noncomputable def _lerpAngle (fuel : ℕ) (current target factor : ℝ) : ℝ :=
  let diff := wrapDiffUp fuel (wrapDiffDown fuel (target - current))
  let result := current + diff * factor
  wrapResHi fuel (wrapResLo fuel result)

/-- `Math.atan2(y, x)`: the argument of the complex number `x + y·i`. -/
noncomputable def atan2 (y x : ℝ) : ℝ :=
  Complex.arg ⟨x, y⟩

/-- The state effect of `_drawDot` on its dot (src/dotwave.js lines
339-412): when stretching is enabled and the stretch amount is significant,
the facing angle is recomputed from the velocity and the angle fields are
updated (smoothed through `_lerpAngle` when rotation smoothing is on);
everything else `_drawDot` does is drawing and leaves the dot unchanged. -/
noncomputable def drawDotEffect (o : Options) (deltaTimeMs : ℝ) (fuel : ℕ) (d : Dot) : Dot :=
  if !o.dotStretch then d
  else
    let speed := Real.sqrt (d.vx * d.vx + d.vy * d.vy)
    let normalizedSpeed := min (speed / o.maxSpeed) 1
    let stretchAmount0 := normalizedSpeed * o.dotStretchMult
    let stretchAmount :=
      if o.dotMaxStretch ≠ 0 then min stretchAmount0 o.dotMaxStretch else stretchAmount0
    if stretchAmount < 0.01 then d
    else
      let target := atan2 d.vy d.vx
      if o.rotSmoothing then
        let rotationFactor :=
          if o.rotSmoothingIntensity ≤ 0 then 1
          else min (deltaTimeMs / o.rotSmoothingIntensity) 1
        { d with
          targetAngle := some target
          currentAngle := some (_lerpAngle fuel (d.currentAngle.getD 0) target rotationFactor) }
      else { d with currentAngle := some target }

/-- One whole loop iteration of `_animate` for one dot: the simulation
update followed by `_drawDot`'s state effect (src/dotwave.js 456-506). -/
noncomputable def frameDot (o : Options) (width height : ℝ) (m : Mouse)
    (dt deltaTimeMs r1 r2 : ℝ) (fuel : ℕ) (d : Dot) : Dot :=
  drawDotEffect o deltaTimeMs fuel (animateDot o width height m dt r1 r2 d)

/-- `k` successive frames, each with its own per-frame inputs. -/
noncomputable def iterateFrames (f : ℕ → Dot → Dot) : ℕ → Dot → Dot
  | 0, d => d
  | n + 1, d => iterateFrames f n (f n d)

/-- JS `s.startsWith(pre)` on the character lists. -/
def jsStartsWith (s pre : String) : Bool :=
  pre.data.isPrefixOf s.data

/-- Replace the first occurrence of `pat` in the haystack, JS
`String.prototype.replace` with a string pattern; unchanged when `pat`
does not occur. -/
def replaceFirstList (pat repl : List Char) : List Char → List Char
  | [] => if pat.isPrefixOf ([] : List Char) then repl else []
  | c :: rest =>
    if pat.isPrefixOf (c :: rest) then repl ++ (c :: rest).drop pat.length
    else c :: replaceFirstList pat repl rest

/-- JS `s.replace(pat, repl)` (string pattern: first occurrence only). -/
def jsReplace (s pat repl : String) : String :=
  ⟨replaceFirstList pat.data repl.data s.data⟩

/-- JS `s.substring(a, b)` for `a ≤ b` (clamped to the string length). -/
def jsSubstring (s : String) (a b : ℕ) : String :=
  ⟨(s.data.drop a).take (b - a)⟩

/-- JS `s.substring(a)`. -/
def jsSubstringFrom (s : String) (a : ℕ) : String :=
  ⟨s.data.drop a⟩

/-- JS `s.charAt(i)`: a one-character string, empty out of range. -/
def jsCharAt (s : String) (i : ℕ) : String :=
  ⟨(s.data.drop i).take 1⟩

/-- The value of one hexadecimal digit character. -/
def hexDigitVal (c : Char) : Option ℕ :=
  if '0' ≤ c ∧ c ≤ '9' then some (c.toNat - '0'.toNat)
  else if 'a' ≤ c ∧ c ≤ 'f' then some (c.toNat - 'a'.toNat + 10)
  else if 'A' ≤ c ∧ c ≤ 'F' then some (c.toNat - 'A'.toNat + 10)
  else none

/-- Accumulate hex digits until the first non-digit, JS `parseInt`'s
longest-valid-prefix rule. -/
def parseHexRest (acc : ℕ) : List Char → ℕ
  | [] => acc
  | c :: rest =>
    match hexDigitVal c with
    | none => acc
    | some d => parseHexRest (16 * acc + d) rest

/-- JS `parseInt(s, 16)`: `none` models `NaN` (no leading hex digit). -/
def jsParseIntHex (s : String) : Option ℕ :=
  match s.data with
  | [] => none
  | c :: rest =>
    match hexDigitVal c with
    | none => none
    | some d => some (parseHexRest d rest)

/-- JS template interpolation of a `parseInt` result: `NaN` prints as
`"NaN"`, a natural number in decimal. -/
def jsNumStr : Option ℕ → String
  | some n => toString n
  | none => "NaN"

/-- JS `c.toLowerCase()` on one ASCII character. -/
def jsCharToLower (c : Char) : Char :=
  if 'A' ≤ c ∧ c ≤ 'Z' then Char.ofNat (c.toNat + 32) else c

/-- JS `s.toLowerCase()` (ASCII range, which covers the CSS color names). -/
def jsToLower (s : String) : String :=
  ⟨s.data.map jsCharToLower⟩

/-- `_getRGBA` (src/dotwave.js lines 515-546).  The `alpha` argument is a
JS number only ever interpolated into the output; it is modelled by its
string image `alphaStr`. -/
def _getRGBA (color alphaStr : String) : String :=
  if jsStartsWith color "rgba" then color
  else if jsStartsWith color "rgb" then
    jsReplace (jsReplace color "rgb" "rgba") ")" (", " ++ alphaStr ++ ")")
  else if jsStartsWith color "#" then
    let hex := jsSubstringFrom color 1
    let r := jsParseIntHex
      (if hex.length = 3 then jsCharAt hex 0 ++ jsCharAt hex 0 else jsSubstring hex 0 2)
    let g := jsParseIntHex
      (if hex.length = 3 then jsCharAt hex 1 ++ jsCharAt hex 1 else jsSubstring hex 2 4)
    let b := jsParseIntHex
      (if hex.length = 3 then jsCharAt hex 2 ++ jsCharAt hex 2 else jsSubstring hex 4 6)
    "rgba(" ++ jsNumStr r ++ ", " ++ jsNumStr g ++ ", " ++ jsNumStr b ++ ", " ++ alphaStr ++ ")"
  else
    let lc := jsToLower color
    if lc = "white" then "rgba(255, 255, 255, " ++ alphaStr ++ ")"
    else if lc = "black" then "rgba(0, 0, 0, " ++ alphaStr ++ ")"
    else if lc = "red" then "rgba(255, 0, 0, " ++ alphaStr ++ ")"
    else if lc = "green" then "rgba(0, 128, 0, " ++ alphaStr ++ ")"
    else if lc = "blue" then "rgba(0, 0, 255, " ++ alphaStr ++ ")"
    else "rgba(255, 255, 255, " ++ alphaStr ++ ")"

/-- A JS configuration value: number, string or boolean. -/
inductive JsVal where
  | num (q : ℚ)
  | str (s : String)
  | bool (b : Bool)
deriving DecidableEq

/-- `this.defaults` of the `DotWave` constructor (src/dotwave.js lines
15-38) as the association list `_mergeOptions` iterates. -/
def defaultsList : List (String × JsVal) :=
  [("container", .str "body"),
   ("numDots", .num 400),
   ("dotColor", .str "white"),
   ("backgroundColor", .str "black"),
   ("dotMinSize", .num 1),
   ("dotMaxSize", .num 3),
   ("dotMinOpacity", .num 0.5),
   ("dotMaxOpacity", .num 1),
   ("influenceRadius", .num 100),
   ("influenceStrength", .num 0.5),
   ("randomFactor", .num 0.05),
   ("friction", .num 0.97),
   ("maxSpeed", .num 3),
   ("reactive", .bool true),
   ("zIndex", .num (-1)),
   ("mouseSpeedDecay", .num 0.85),
   ("maxMouseSpeed", .num 15),
   ("dotStretch", .bool true),
   ("dotStretchMult", .num 10),
   ("dotMaxStretch", .num 20),
   ("rotSmoothing", .bool false),
   ("rotSmoothingIntensity", .num 150)]

/-! ## Wraparound -/

theorem wrapCoord_low (size c : ℝ) (h : c < -50) : wrapCoord size c = size + 50 := by
  simp only [wrapCoord]
  rw [if_pos h, if_neg (lt_irrefl _)]

theorem wrapCoord_high (size c : ℝ) (hc : -50 ≤ c) (h : c > size + 50) :
    wrapCoord size c = -50 := by
  simp only [wrapCoord]
  rw [if_neg (not_lt.mpr hc), if_pos h]

theorem wrapCoord_id (size c : ℝ) (h1 : -50 ≤ c) (h2 : c ≤ size + 50) :
    wrapCoord size c = c := by
  simp only [wrapCoord]
  rw [if_neg (not_lt.mpr h1), if_neg (not_lt.mpr h2)]

theorem wrapCoord_mem_Icc (size c : ℝ) (h : -100 ≤ size) :
    -50 ≤ wrapCoord size c ∧ wrapCoord size c ≤ size + 50 := by
  simp only [wrapCoord]
  by_cases h1 : c < -50
  · rw [if_pos h1, if_neg (lt_irrefl _)]
    constructor <;> linarith
  · rw [if_neg h1]
    by_cases h2 : c > size + 50
    · rw [if_pos h2]
      constructor <;> linarith
    · rw [if_neg h2]
      push_neg at h1 h2
      constructor <;> linarith

/-- C3: the wraparound phase of the simulation step teleports a coordinate
below `-50` to `surfaceSize + 50` and one above `surfaceSize + 50` to
`-50`; in particular `x = width + 51` wraps to `-50` and `x = -51` wraps to
`width + 50`. -/
theorem wraparound_teleports (width x : ℝ) (hw : 0 ≤ width) :
    (x < -50 → wrapCoord width x = width + 50) ∧
    (x > width + 50 → wrapCoord width x = -50) ∧
    wrapCoord width (width + 51) = -50 ∧
    wrapCoord width (-51) = width + 50 := by
  refine ⟨fun h => wrapCoord_low width x h, fun h => ?_, ?_, ?_⟩
  · exact wrapCoord_high width x (by linarith) h
  · exact wrapCoord_high width (width + 51) (by linarith) (by linarith)
  · exact wrapCoord_low width (-51) (by norm_num)

theorem wraparound_teleports_witness :
    (0 : ℝ) ≤ 100 ∧
    (((-51 : ℝ) < -50 → wrapCoord 100 (-51) = 100 + 50) ∧
     ((-51 : ℝ) > 100 + 50 → wrapCoord 100 (-51) = -50) ∧
     wrapCoord 100 (100 + 51) = -50 ∧
     wrapCoord 100 (-51) = 100 + 50) :=
  ⟨by norm_num, wraparound_teleports 100 (-51) (by norm_num)⟩

/-- C4: after a full simulation step both position coordinates lie in
`[-50, surfaceSize + 50]` on their axis — the wraparound phase
re-establishes the bound whatever the integration phase produced. -/
theorem step_position_in_margin (o : Options) (width height : ℝ) (m : Mouse)
    (dt r1 r2 : ℝ) (d : Dot) (hw : 0 ≤ width) (hh : 0 ≤ height) :
    (-50 ≤ (animateDot o width height m dt r1 r2 d).x ∧
      (animateDot o width height m dt r1 r2 d).x ≤ width + 50) ∧
    (-50 ≤ (animateDot o width height m dt r1 r2 d).y ∧
      (animateDot o width height m dt r1 r2 d).y ≤ height + 50) := by
  have hx : (animateDot o width height m dt r1 r2 d).x
      = wrapCoord width (integrate dt (velocityPhase o m dt r1 r2 d)).x := rfl
  have hy : (animateDot o width height m dt r1 r2 d).y
      = wrapCoord height (integrate dt (velocityPhase o m dt r1 r2 d)).y := rfl
  rw [hx, hy]
  exact ⟨wrapCoord_mem_Icc _ _ (by linarith), wrapCoord_mem_Icc _ _ (by linarith)⟩

theorem step_position_in_margin_witness :
    (0 : ℝ) ≤ 640 ∧ (0 : ℝ) ≤ 480 ∧
    ((-50 ≤ (animateDot defaultOptions 640 480 ⟨0, 0, 0, 0, false⟩ 1 0.5 0.5
        ⟨800, -70, 0.5, 2, 0.75, 1, 0, 0.65, none, none⟩).x ∧
      (animateDot defaultOptions 640 480 ⟨0, 0, 0, 0, false⟩ 1 0.5 0.5
        ⟨800, -70, 0.5, 2, 0.75, 1, 0, 0.65, none, none⟩).x ≤ 640 + 50) ∧
     (-50 ≤ (animateDot defaultOptions 640 480 ⟨0, 0, 0, 0, false⟩ 1 0.5 0.5
        ⟨800, -70, 0.5, 2, 0.75, 1, 0, 0.65, none, none⟩).y ∧
      (animateDot defaultOptions 640 480 ⟨0, 0, 0, 0, false⟩ 1 0.5 0.5
        ⟨800, -70, 0.5, 2, 0.75, 1, 0, 0.65, none, none⟩).y ≤ 480 + 50)) :=
  ⟨by norm_num, by norm_num,
    step_position_in_margin defaultOptions 640 480 ⟨0, 0, 0, 0, false⟩ 1 0.5 0.5
      ⟨800, -70, 0.5, 2, 0.75, 1, 0, 0.65, none, none⟩ (by norm_num) (by norm_num)⟩

/-! ## The speed clamp -/

theorem applyClamp_speed (o : Options) (d : Dot) (hM : 0 ≤ o.maxSpeed) :
    Real.sqrt ((applyClamp o d).vx ^ 2 + (applyClamp o d).vy ^ 2) ≤ o.maxSpeed ∧
    (Real.sqrt (d.vx ^ 2 + d.vy ^ 2) > o.maxSpeed →
      Real.sqrt ((applyClamp o d).vx ^ 2 + (applyClamp o d).vy ^ 2) = o.maxSpeed) := by
  by_cases h : d.vx * d.vx + d.vy * d.vy > o.maxSpeed * o.maxSpeed
  · have hs0 : (0 : ℝ) < d.vx * d.vx + d.vy * d.vy :=
      lt_of_le_of_lt (mul_self_nonneg o.maxSpeed) h
    have hsq : (0 : ℝ) < Real.sqrt (d.vx * d.vx + d.vy * d.vy) := Real.sqrt_pos.mpr hs0
    have hvx : (applyClamp o d).vx
        = d.vx * (o.maxSpeed / Real.sqrt (d.vx * d.vx + d.vy * d.vy)) := by
      simp only [applyClamp]
      rw [if_pos h]
    have hvy : (applyClamp o d).vy
        = d.vy * (o.maxSpeed / Real.sqrt (d.vx * d.vx + d.vy * d.vy)) := by
      simp only [applyClamp]
      rw [if_pos h]
    have hss : Real.sqrt (d.vx * d.vx + d.vy * d.vy) ^ 2 = d.vx * d.vx + d.vy * d.vy :=
      Real.sq_sqrt hs0.le
    have key : (applyClamp o d).vx ^ 2 + (applyClamp o d).vy ^ 2 = o.maxSpeed ^ 2 := by
      rw [hvx, hvy]
      have hne : Real.sqrt (d.vx * d.vx + d.vy * d.vy) ≠ 0 := ne_of_gt hsq
      field_simp
      nlinarith [hss]
    have hfin : Real.sqrt ((applyClamp o d).vx ^ 2 + (applyClamp o d).vy ^ 2) = o.maxSpeed := by
      rw [key, Real.sqrt_sq hM]
    exact ⟨le_of_eq hfin, fun _ => hfin⟩
  · have hcl : applyClamp o d = d := by
      simp only [applyClamp]
      rw [if_neg h]
    push_neg at h
    have hle : d.vx ^ 2 + d.vy ^ 2 ≤ o.maxSpeed ^ 2 := by nlinarith [h]
    rw [hcl]
    constructor
    · calc Real.sqrt (d.vx ^ 2 + d.vy ^ 2) ≤ Real.sqrt (o.maxSpeed ^ 2) :=
          Real.sqrt_le_sqrt hle
        _ = o.maxSpeed := Real.sqrt_sq hM
    · intro hgt
      exfalso
      have hnn : (0 : ℝ) ≤ d.vx ^ 2 + d.vy ^ 2 := by positivity
      nlinarith [Real.sq_sqrt hnn, hgt, hM, hle]

/-- C2: after the velocity update of a step (influence, jitter, friction,
clamp in that order) the speed is at most `maxSpeed`; when the pre-clamp
speed exceeds `maxSpeed` the clamp rescales to magnitude exactly
`maxSpeed`; and the rest of the step (integration, wraparound) leaves the
velocity untouched. -/
theorem step_speed_clamped (o : Options) (width height : ℝ) (m : Mouse)
    (dt r1 r2 : ℝ) (d : Dot) (hM : 0 ≤ o.maxSpeed) :
    Real.sqrt ((velocityPhase o m dt r1 r2 d).vx ^ 2 + (velocityPhase o m dt r1 r2 d).vy ^ 2)
      ≤ o.maxSpeed ∧
    (Real.sqrt ((preClamp o m dt r1 r2 d).vx ^ 2 + (preClamp o m dt r1 r2 d).vy ^ 2)
        > o.maxSpeed →
      Real.sqrt ((velocityPhase o m dt r1 r2 d).vx ^ 2 + (velocityPhase o m dt r1 r2 d).vy ^ 2)
        = o.maxSpeed) ∧
    (animateDot o width height m dt r1 r2 d).vx = (velocityPhase o m dt r1 r2 d).vx ∧
    (animateDot o width height m dt r1 r2 d).vy = (velocityPhase o m dt r1 r2 d).vy := by
  obtain ⟨h1, h2⟩ := applyClamp_speed o (preClamp o m dt r1 r2 d) hM
  exact ⟨h1, h2, rfl, rfl⟩

theorem step_speed_clamped_witness :
    (0 : ℝ) ≤ defaultOptions.maxSpeed ∧
    (Real.sqrt ((velocityPhase defaultOptions ⟨0, 0, 0, 0, false⟩ 1 0.5 0.5
          ⟨10, 10, 0.5, 2, 0.75, 4, 0, 0.65, none, none⟩).vx ^ 2 +
        (velocityPhase defaultOptions ⟨0, 0, 0, 0, false⟩ 1 0.5 0.5
          ⟨10, 10, 0.5, 2, 0.75, 4, 0, 0.65, none, none⟩).vy ^ 2)
      ≤ defaultOptions.maxSpeed ∧
    (Real.sqrt ((preClamp defaultOptions ⟨0, 0, 0, 0, false⟩ 1 0.5 0.5
            ⟨10, 10, 0.5, 2, 0.75, 4, 0, 0.65, none, none⟩).vx ^ 2 +
          (preClamp defaultOptions ⟨0, 0, 0, 0, false⟩ 1 0.5 0.5
            ⟨10, 10, 0.5, 2, 0.75, 4, 0, 0.65, none, none⟩).vy ^ 2)
        > defaultOptions.maxSpeed →
      Real.sqrt ((velocityPhase defaultOptions ⟨0, 0, 0, 0, false⟩ 1 0.5 0.5
            ⟨10, 10, 0.5, 2, 0.75, 4, 0, 0.65, none, none⟩).vx ^ 2 +
          (velocityPhase defaultOptions ⟨0, 0, 0, 0, false⟩ 1 0.5 0.5
            ⟨10, 10, 0.5, 2, 0.75, 4, 0, 0.65, none, none⟩).vy ^ 2)
        = defaultOptions.maxSpeed) ∧
    (animateDot defaultOptions 640 480 ⟨0, 0, 0, 0, false⟩ 1 0.5 0.5
        ⟨10, 10, 0.5, 2, 0.75, 4, 0, 0.65, none, none⟩).vx
      = (velocityPhase defaultOptions ⟨0, 0, 0, 0, false⟩ 1 0.5 0.5
        ⟨10, 10, 0.5, 2, 0.75, 4, 0, 0.65, none, none⟩).vx ∧
    (animateDot defaultOptions 640 480 ⟨0, 0, 0, 0, false⟩ 1 0.5 0.5
        ⟨10, 10, 0.5, 2, 0.75, 4, 0, 0.65, none, none⟩).vy
      = (velocityPhase defaultOptions ⟨0, 0, 0, 0, false⟩ 1 0.5 0.5
        ⟨10, 10, 0.5, 2, 0.75, 4, 0, 0.65, none, none⟩).vy) :=
  ⟨by norm_num [defaultOptions],
    step_speed_clamped defaultOptions 640 480 ⟨0, 0, 0, 0, false⟩ 1 0.5 0.5
      ⟨10, 10, 0.5, 2, 0.75, 4, 0, 0.65, none, none⟩ (by norm_num [defaultOptions])⟩

/-! ## Immutability of the depth-derived fields -/

theorem applyInfluence_core (o : Options) (m : Mouse) (dt : ℝ) (d : Dot) :
    (applyInfluence o m dt d).z = d.z ∧ (applyInfluence o m dt d).radius = d.radius ∧
    (applyInfluence o m dt d).alpha = d.alpha ∧
    (applyInfluence o m dt d).speedMultiplier = d.speedMultiplier := by
  simp only [applyInfluence]
  split_ifs <;> exact ⟨rfl, rfl, rfl, rfl⟩

theorem applyClamp_core (o : Options) (d : Dot) :
    (applyClamp o d).z = d.z ∧ (applyClamp o d).radius = d.radius ∧
    (applyClamp o d).alpha = d.alpha ∧
    (applyClamp o d).speedMultiplier = d.speedMultiplier := by
  simp only [applyClamp]
  split_ifs <;> exact ⟨rfl, rfl, rfl, rfl⟩

theorem velocityPhase_core (o : Options) (m : Mouse) (dt r1 r2 : ℝ) (d : Dot) :
    (velocityPhase o m dt r1 r2 d).z = d.z ∧
    (velocityPhase o m dt r1 r2 d).radius = d.radius ∧
    (velocityPhase o m dt r1 r2 d).alpha = d.alpha ∧
    (velocityPhase o m dt r1 r2 d).speedMultiplier = d.speedMultiplier := by
  obtain ⟨i1, i2, i3, i4⟩ := applyInfluence_core o m dt d
  obtain ⟨c1, c2, c3, c4⟩ :=
    applyClamp_core o (preClamp o m dt r1 r2 d)
  refine ⟨c1.trans ?_, c2.trans ?_, c3.trans ?_, c4.trans ?_⟩ <;>
    simp only [preClamp, applyFriction, applyJitter] <;> assumption

theorem animateDot_core (o : Options) (width height : ℝ) (m : Mouse)
    (dt r1 r2 : ℝ) (d : Dot) :
    (animateDot o width height m dt r1 r2 d).z = d.z ∧
    (animateDot o width height m dt r1 r2 d).radius = d.radius ∧
    (animateDot o width height m dt r1 r2 d).alpha = d.alpha ∧
    (animateDot o width height m dt r1 r2 d).speedMultiplier = d.speedMultiplier :=
  velocityPhase_core o m dt r1 r2 d

theorem drawDotEffect_core (o : Options) (deltaTimeMs : ℝ) (fuel : ℕ) (d : Dot) :
    (drawDotEffect o deltaTimeMs fuel d).z = d.z ∧
    (drawDotEffect o deltaTimeMs fuel d).radius = d.radius ∧
    (drawDotEffect o deltaTimeMs fuel d).alpha = d.alpha ∧
    (drawDotEffect o deltaTimeMs fuel d).speedMultiplier = d.speedMultiplier := by
  simp only [drawDotEffect]
  split_ifs <;> exact ⟨rfl, rfl, rfl, rfl⟩

theorem frameDot_core (o : Options) (width height : ℝ) (m : Mouse)
    (dt deltaTimeMs r1 r2 : ℝ) (fuel : ℕ) (d : Dot) :
    (frameDot o width height m dt deltaTimeMs r1 r2 fuel d).z = d.z ∧
    (frameDot o width height m dt deltaTimeMs r1 r2 fuel d).radius = d.radius ∧
    (frameDot o width height m dt deltaTimeMs r1 r2 fuel d).alpha = d.alpha ∧
    (frameDot o width height m dt deltaTimeMs r1 r2 fuel d).speedMultiplier
      = d.speedMultiplier := by
  obtain ⟨a1, a2, a3, a4⟩ := animateDot_core o width height m dt r1 r2 d
  obtain ⟨b1, b2, b3, b4⟩ :=
    drawDotEffect_core o deltaTimeMs fuel (animateDot o width height m dt r1 r2 d)
  exact ⟨b1.trans a1, b2.trans a2, b3.trans a3, b4.trans a4⟩

/-- C6: over any number of simulation-plus-render frames, each with its own
cursor state, time step and random draws, a dot's `z`, `radius`, `alpha`
and `speedMultiplier` keep their creation-time values: a frame only mutates
position, velocity and the angle fields. -/
theorem frames_preserve_depth_fields (o : Options) (width height : ℝ)
    (ms : ℕ → Mouse) (dts deltaTimeMss r1s r2s : ℕ → ℝ) (fuel k : ℕ) (d : Dot) :
    (iterateFrames
        (fun n => frameDot o width height (ms n) (dts n) (deltaTimeMss n) (r1s n) (r2s n) fuel)
        k d).z = d.z ∧
    (iterateFrames
        (fun n => frameDot o width height (ms n) (dts n) (deltaTimeMss n) (r1s n) (r2s n) fuel)
        k d).radius = d.radius ∧
    (iterateFrames
        (fun n => frameDot o width height (ms n) (dts n) (deltaTimeMss n) (r1s n) (r2s n) fuel)
        k d).alpha = d.alpha ∧
    (iterateFrames
        (fun n => frameDot o width height (ms n) (dts n) (deltaTimeMss n) (r1s n) (r2s n) fuel)
        k d).speedMultiplier = d.speedMultiplier := by
  induction k generalizing d with
  | zero => exact ⟨rfl, rfl, rfl, rfl⟩
  | succ n ih =>
    obtain ⟨f1, f2, f3, f4⟩ :=
      frameDot_core o width height (ms n) (dts n) (deltaTimeMss n) (r1s n) (r2s n) fuel d
    obtain ⟨g1, g2, g3, g4⟩ :=
      ih (frameDot o width height (ms n) (dts n) (deltaTimeMss n) (r1s n) (r2s n) fuel d)
    exact ⟨g1.trans f1, g2.trans f2, g3.trans f3, g4.trans f4⟩

/-! ## Angle interpolation -/

theorem wrapDiffDown_one (d : ℝ) :
    wrapDiffDown 1 d = if d > Real.pi then d - 2 * Real.pi else d := by
  simp only [wrapDiffDown]

theorem wrapDiffUp_one (d : ℝ) :
    wrapDiffUp 1 d = if d < -Real.pi then d + 2 * Real.pi else d := by
  simp only [wrapDiffUp]

theorem wrapResLo_one (d : ℝ) :
    wrapResLo 1 d = if d < 0 then d + 2 * Real.pi else d := by
  simp only [wrapResLo]

theorem wrapResHi_one (d : ℝ) :
    wrapResHi 1 d = if d ≥ 2 * Real.pi then d - 2 * Real.pi else d := by
  simp only [wrapResHi]

/-- C9: `_lerpAngle` takes the shortest angular path: the difference is
wrapped into `[-π, π]` before scaling; `lerpAngle 0 π 0.5 = π/2`; and
`lerpAngle 0.1 (2π - 0.1) 0.5` lands exactly on `0`, moving through angle
`0` rather than through `π`. -/
theorem lerpAngle_shortest_path :
    (∀ diff : ℝ, -3 * Real.pi ≤ diff → diff ≤ 3 * Real.pi →
      -Real.pi ≤ wrapDiffUp 1 (wrapDiffDown 1 diff) ∧
        wrapDiffUp 1 (wrapDiffDown 1 diff) ≤ Real.pi) ∧
    _lerpAngle 1 0 Real.pi (1 / 2) = Real.pi / 2 ∧
    _lerpAngle 1 (1 / 10) (2 * Real.pi - 1 / 10) (1 / 2) = 0 := by
  have hpi : (0 : ℝ) < Real.pi := Real.pi_pos
  have hpi3 : (3 : ℝ) < Real.pi := by
    have := Real.pi_gt_three
    linarith
  refine ⟨?_, ?_, ?_⟩
  · intro diff hlo hhi
    rw [wrapDiffDown_one]
    by_cases h1 : diff > Real.pi
    · rw [if_pos h1, wrapDiffUp_one, if_neg (by linarith)]
      constructor <;> linarith
    · rw [if_neg h1, wrapDiffUp_one]
      by_cases h2 : diff < -Real.pi
      · rw [if_pos h2]
        constructor <;> linarith
      · rw [if_neg h2]
        push_neg at h1 h2
        constructor <;> linarith
  · simp only [_lerpAngle]
    rw [sub_zero, wrapDiffDown_one, if_neg (lt_irrefl Real.pi), wrapDiffUp_one,
      if_neg (by linarith), wrapResLo_one, if_neg (by linarith), wrapResHi_one,
      if_neg (by push_neg; linarith)]
    ring
  · simp only [_lerpAngle]
    have hd : 2 * Real.pi - 1 / 10 - 1 / 10 = 2 * Real.pi - 1 / 5 := by ring
    rw [hd, wrapDiffDown_one, if_pos (by linarith), wrapDiffUp_one,
      if_neg (by linarith)]
    have hr : 1 / 10 + (2 * Real.pi - 1 / 5 - 2 * Real.pi) * (1 / 2) = (0 : ℝ) := by ring
    rw [hr, wrapResLo_one, if_neg (lt_irrefl 0), wrapResHi_one,
      if_neg (by push_neg; linarith)]

/-! ## Field initialization -/

/-- C5: `_createDots` with count `n ≥ 0` produces exactly `n` dots, each
with position in `[0,width) × [0,height)`, depth in `[0,1)`, radius, alpha
and speed multiplier derived affinely from the depth, velocity components
in `[-0.75, 0.75]`, `currentAngle = 0` when stretching is enabled and
`targetAngle = 0` when rotation smoothing is enabled too; count `0` yields
an empty field. -/
theorem createDots_spec (o : Options) (width height : ℝ) (draw : ℕ → Draw) (n : ℕ)
    (hn : o.numDots = (n : ℤ)) (hw : 0 < width) (hh : 0 < height)
    (hdraw : ∀ i, 0 ≤ (draw i).z ∧ (draw i).z < 1 ∧ 0 ≤ (draw i).rx ∧ (draw i).rx < 1 ∧
      0 ≤ (draw i).ry ∧ (draw i).ry < 1 ∧ 0 ≤ (draw i).rvx ∧ (draw i).rvx < 1 ∧
      0 ≤ (draw i).rvy ∧ (draw i).rvy < 1) :
    (_createDots o width height draw).length = n ∧
    (∀ d ∈ _createDots o width height draw,
      (0 ≤ d.x ∧ d.x < width) ∧ (0 ≤ d.y ∧ d.y < height) ∧ (0 ≤ d.z ∧ d.z < 1) ∧
      d.radius = o.dotMinSize + d.z * (o.dotMaxSize - o.dotMinSize) ∧
      d.alpha = o.dotMinOpacity + d.z * (o.dotMaxOpacity - o.dotMinOpacity) ∧
      d.speedMultiplier = 0.3 + d.z * 0.7 ∧
      (-0.75 ≤ d.vx ∧ d.vx ≤ 0.75) ∧ (-0.75 ≤ d.vy ∧ d.vy ≤ 0.75) ∧
      (o.dotStretch = true → d.currentAngle = some 0) ∧
      (o.dotStretch = true → o.rotSmoothing = true → d.targetAngle = some 0)) ∧
    (n = 0 → _createDots o width height draw = []) := by
  refine ⟨?_, ?_, ?_⟩
  · simp [_createDots, hn]
  · intro d hd
    simp only [_createDots, List.mem_map, List.mem_range] at hd
    obtain ⟨i, _, rfl⟩ := hd
    obtain ⟨hz0, hz1, hrx0, hrx1, hry0, hry1, hvx0, hvx1, hvy0, hvy1⟩ := hdraw i
    dsimp only
    refine ⟨⟨mul_nonneg hrx0 hw.le, mul_lt_of_lt_one_left hw hrx1⟩,
      ⟨mul_nonneg hry0 hh.le, mul_lt_of_lt_one_left hh hry1⟩,
      ⟨hz0, hz1⟩, rfl, rfl, rfl,
      ⟨by nlinarith, by nlinarith⟩, ⟨by nlinarith, by nlinarith⟩, ?_, ?_⟩
    · intro h
      simp [h]
    · intro h1 h2
      simp [h1, h2]
  · intro h0
    subst h0
    simp [_createDots, hn]

theorem createDots_spec_witness :
    ({ defaultOptions with numDots := 1 } : Options).numDots = ((1 : ℕ) : ℤ) ∧
    (0 : ℝ) < 200 ∧ (0 : ℝ) < 300 ∧
    (∀ i : ℕ, 0 ≤ ((fun _ : ℕ => (⟨0.5, 0.5, 0.5, 0.5, 0.5⟩ : Draw)) i).z ∧
      ((fun _ : ℕ => (⟨0.5, 0.5, 0.5, 0.5, 0.5⟩ : Draw)) i).z < 1 ∧
      0 ≤ ((fun _ : ℕ => (⟨0.5, 0.5, 0.5, 0.5, 0.5⟩ : Draw)) i).rx ∧
      ((fun _ : ℕ => (⟨0.5, 0.5, 0.5, 0.5, 0.5⟩ : Draw)) i).rx < 1 ∧
      0 ≤ ((fun _ : ℕ => (⟨0.5, 0.5, 0.5, 0.5, 0.5⟩ : Draw)) i).ry ∧
      ((fun _ : ℕ => (⟨0.5, 0.5, 0.5, 0.5, 0.5⟩ : Draw)) i).ry < 1 ∧
      0 ≤ ((fun _ : ℕ => (⟨0.5, 0.5, 0.5, 0.5, 0.5⟩ : Draw)) i).rvx ∧
      ((fun _ : ℕ => (⟨0.5, 0.5, 0.5, 0.5, 0.5⟩ : Draw)) i).rvx < 1 ∧
      0 ≤ ((fun _ : ℕ => (⟨0.5, 0.5, 0.5, 0.5, 0.5⟩ : Draw)) i).rvy ∧
      ((fun _ : ℕ => (⟨0.5, 0.5, 0.5, 0.5, 0.5⟩ : Draw)) i).rvy < 1) ∧
    ((_createDots { defaultOptions with numDots := 1 } 200 300
        (fun _ => ⟨0.5, 0.5, 0.5, 0.5, 0.5⟩)).length = 1 ∧
      (∀ d ∈ _createDots { defaultOptions with numDots := 1 } 200 300
          (fun _ => ⟨0.5, 0.5, 0.5, 0.5, 0.5⟩),
        (0 ≤ d.x ∧ d.x < 200) ∧ (0 ≤ d.y ∧ d.y < 300) ∧ (0 ≤ d.z ∧ d.z < 1) ∧
        d.radius = ({ defaultOptions with numDots := 1 } : Options).dotMinSize +
          d.z * (({ defaultOptions with numDots := 1 } : Options).dotMaxSize -
            ({ defaultOptions with numDots := 1 } : Options).dotMinSize) ∧
        d.alpha = ({ defaultOptions with numDots := 1 } : Options).dotMinOpacity +
          d.z * (({ defaultOptions with numDots := 1 } : Options).dotMaxOpacity -
            ({ defaultOptions with numDots := 1 } : Options).dotMinOpacity) ∧
        d.speedMultiplier = 0.3 + d.z * 0.7 ∧
        (-0.75 ≤ d.vx ∧ d.vx ≤ 0.75) ∧ (-0.75 ≤ d.vy ∧ d.vy ≤ 0.75) ∧
        (({ defaultOptions with numDots := 1 } : Options).dotStretch = true →
          d.currentAngle = some 0) ∧
        (({ defaultOptions with numDots := 1 } : Options).dotStretch = true →
          ({ defaultOptions with numDots := 1 } : Options).rotSmoothing = true →
          d.targetAngle = some 0)) ∧
      ((1 : ℕ) = 0 → _createDots { defaultOptions with numDots := 1 } 200 300
        (fun _ => ⟨0.5, 0.5, 0.5, 0.5, 0.5⟩) = [])) :=
  ⟨rfl, by norm_num, by norm_num, fun i => by norm_num,
    createDots_spec { defaultOptions with numDots := 1 } 200 300
      (fun _ => ⟨0.5, 0.5, 0.5, 0.5, 0.5⟩) 1 rfl (by norm_num) (by norm_num)
      (fun i => by norm_num)⟩

/-! ## Subdivision of the time step -/

theorem applyInfluence_inactive (o : Options) (m : Mouse) (dt : ℝ) (d : Dot)
    (h : o.reactive = false) : applyInfluence o m dt d = d := by
  simp [applyInfluence, h]

theorem velocityPhase_pos (o : Options) (m : Mouse) (dt r1 r2 : ℝ) (d : Dot) :
    (velocityPhase o m dt r1 r2 d).x = d.x ∧ (velocityPhase o m dt r1 r2 d).y = d.y := by
  simp only [velocityPhase, preClamp, applyClamp, applyFriction, applyJitter, applyInfluence]
  split_ifs <;> exact ⟨rfl, rfl⟩

theorem preClamp_inactive (o : Options) (m : Mouse) (dt r1 r2 : ℝ) (d : Dot)
    (hre : o.reactive = false) (hrf : o.randomFactor = 0) :
    (preClamp o m dt r1 r2 d).vx = d.vx * o.friction ^ dt ∧
    (preClamp o m dt r1 r2 d).vy = d.vy * o.friction ^ dt := by
  have h0 : applyInfluence o m dt d = d := applyInfluence_inactive o m dt d hre
  constructor <;>
    · simp only [preClamp, h0, applyJitter, applyFriction, hrf]
      ring

theorem velocityPhase_inactive (o : Options) (m : Mouse) (dt r1 r2 : ℝ) (d : Dot)
    (hre : o.reactive = false) (hrf : o.randomFactor = 0)
    (hcl : ¬ (d.vx * o.friction ^ dt * (d.vx * o.friction ^ dt) +
        d.vy * o.friction ^ dt * (d.vy * o.friction ^ dt) > o.maxSpeed * o.maxSpeed)) :
    (velocityPhase o m dt r1 r2 d).vx = d.vx * o.friction ^ dt ∧
    (velocityPhase o m dt r1 r2 d).vy = d.vy * o.friction ^ dt := by
  obtain ⟨hvx, hvy⟩ := preClamp_inactive o m dt r1 r2 d hre hrf
  have hcond : ¬ ((preClamp o m dt r1 r2 d).vx * (preClamp o m dt r1 r2 d).vx +
      (preClamp o m dt r1 r2 d).vy * (preClamp o m dt r1 r2 d).vy
        > o.maxSpeed * o.maxSpeed) := by
    rw [hvx, hvy]
    exact hcl
  constructor
  · show (applyClamp o (preClamp o m dt r1 r2 d)).vx = _
    simp only [applyClamp]
    rw [if_neg hcond]
    exact hvx
  · show (applyClamp o (preClamp o m dt r1 r2 d)).vy = _
    simp only [applyClamp]
    rw [if_neg hcond]
    exact hvy

theorem animateDot_eval_inactive (o : Options) (width height : ℝ) (m : Mouse)
    (dt r1 r2 : ℝ) (d : Dot)
    (hre : o.reactive = false) (hrf : o.randomFactor = 0)
    (hcl : ¬ (d.vx * o.friction ^ dt * (d.vx * o.friction ^ dt) +
        d.vy * o.friction ^ dt * (d.vy * o.friction ^ dt) > o.maxSpeed * o.maxSpeed)) :
    (animateDot o width height m dt r1 r2 d).x
      = wrapCoord width (d.x + d.vx * o.friction ^ dt * d.speedMultiplier * dt) ∧
    (animateDot o width height m dt r1 r2 d).y
      = wrapCoord height (d.y + d.vy * o.friction ^ dt * d.speedMultiplier * dt) ∧
    (animateDot o width height m dt r1 r2 d).vx = d.vx * o.friction ^ dt ∧
    (animateDot o width height m dt r1 r2 d).vy = d.vy * o.friction ^ dt ∧
    (animateDot o width height m dt r1 r2 d).speedMultiplier = d.speedMultiplier := by
  obtain ⟨hvx, hvy⟩ := velocityPhase_inactive o m dt r1 r2 d hre hrf hcl
  obtain ⟨hx, hy⟩ := velocityPhase_pos o m dt r1 r2 d
  obtain ⟨_, _, _, hsm⟩ := velocityPhase_core o m dt r1 r2 d
  refine ⟨?_, ?_, hvx, hvy, hsm⟩
  · show wrapCoord width ((velocityPhase o m dt r1 r2 d).x +
      (velocityPhase o m dt r1 r2 d).vx * (velocityPhase o m dt r1 r2 d).speedMultiplier * dt)
      = _
    rw [hx, hvx, hsm]
  · show wrapCoord height ((velocityPhase o m dt r1 r2 d).y +
      (velocityPhase o m dt r1 r2 d).vy * (velocityPhase o m dt r1 r2 d).speedMultiplier * dt)
      = _
    rw [hy, hvy, hsm]

theorem decay_one_le (vx vy f M : ℝ) (hv : vx * vx + vy * vy ≤ M * M)
    (hf0 : 0 ≤ f) (hf1 : f ≤ 1) :
    (vx * vx + vy * vy) * (f * f) ≤ M * M := by
  have ha : 0 ≤ vx * vx + vy * vy := add_nonneg (mul_self_nonneg _) (mul_self_nonneg _)
  have hff : f * f ≤ 1 := by nlinarith
  have hff0 : 0 ≤ f * f := mul_self_nonneg _
  nlinarith

theorem decay_two_le (vx vy f M : ℝ) (hv : vx * vx + vy * vy ≤ M * M)
    (hf0 : 0 ≤ f) (hf1 : f ≤ 1) :
    (vx * vx + vy * vy) * ((f * f) * (f * f)) ≤ M * M := by
  have ha : 0 ≤ vx * vx + vy * vy := add_nonneg (mul_self_nonneg _) (mul_self_nonneg _)
  have hff : f * f ≤ 1 := by nlinarith
  have hff0 : 0 ≤ f * f := mul_self_nonneg _
  have hcc : (f * f) * (f * f) ≤ 1 := by nlinarith
  have hcc0 : 0 ≤ (f * f) * (f * f) := mul_self_nonneg _
  nlinarith

theorem rpow_two_eq (f : ℝ) : f ^ (2 : ℝ) = f * f := by
  rw [show (2 : ℝ) = ((2 : ℕ) : ℝ) by norm_num, Real.rpow_natCast]
  ring

/-- C1 (amended): with random jitter disabled and cursor influence
inactive, and provided the initial speed does not exceed `maxSpeed` and
`friction ∈ [0,1]` (so the clamp never fires), one step with `dt = 2`
yields exactly the velocity of two consecutive steps with `dt = 1`
(`f^2 = f·f`).  Position is not invariant to the subdivision (see the
counterexample), so the invariance holds for the friction-decayed velocity
only. -/
theorem velocity_subdivision_invariant (o : Options) (width height : ℝ) (m : Mouse)
    (r1 r2 r3 r4 : ℝ) (d : Dot)
    (hre : o.reactive = false) (hrf : o.randomFactor = 0)
    (hf0 : 0 ≤ o.friction) (hf1 : o.friction ≤ 1)
    (hv : d.vx * d.vx + d.vy * d.vy ≤ o.maxSpeed * o.maxSpeed) :
    (animateDot o width height m 2 r1 r2 d).vx
      = (animateDot o width height m 1 r3 r4 (animateDot o width height m 1 r1 r2 d)).vx ∧
    (animateDot o width height m 2 r1 r2 d).vy
      = (animateDot o width height m 1 r3 r4 (animateDot o width height m 1 r1 r2 d)).vy := by
  have hp1 : o.friction ^ (1 : ℝ) = o.friction := Real.rpow_one o.friction
  have hp2 : o.friction ^ (2 : ℝ) = o.friction * o.friction := rpow_two_eq o.friction
  have hcl2 : ¬ (d.vx * o.friction ^ (2 : ℝ) * (d.vx * o.friction ^ (2 : ℝ)) +
      d.vy * o.friction ^ (2 : ℝ) * (d.vy * o.friction ^ (2 : ℝ))
        > o.maxSpeed * o.maxSpeed) := by
    rw [hp2]
    push_neg
    have expand : d.vx * (o.friction * o.friction) * (d.vx * (o.friction * o.friction)) +
        d.vy * (o.friction * o.friction) * (d.vy * (o.friction * o.friction))
        = (d.vx * d.vx + d.vy * d.vy) *
          ((o.friction * o.friction) * (o.friction * o.friction)) := by ring
    rw [expand]
    exact decay_two_le d.vx d.vy o.friction o.maxSpeed hv hf0 hf1
  have hcl1 : ¬ (d.vx * o.friction ^ (1 : ℝ) * (d.vx * o.friction ^ (1 : ℝ)) +
      d.vy * o.friction ^ (1 : ℝ) * (d.vy * o.friction ^ (1 : ℝ))
        > o.maxSpeed * o.maxSpeed) := by
    rw [hp1]
    push_neg
    have expand : d.vx * o.friction * (d.vx * o.friction) +
        d.vy * o.friction * (d.vy * o.friction)
        = (d.vx * d.vx + d.vy * d.vy) * (o.friction * o.friction) := by ring
    rw [expand]
    exact decay_one_le d.vx d.vy o.friction o.maxSpeed hv hf0 hf1
  obtain ⟨_, _, h2vx, h2vy, _⟩ :=
    animateDot_eval_inactive o width height m 2 r1 r2 d hre hrf hcl2
  obtain ⟨_, _, h1vx, h1vy, _⟩ :=
    animateDot_eval_inactive o width height m 1 r1 r2 d hre hrf hcl1
  have hcl1b : ¬ ((animateDot o width height m 1 r1 r2 d).vx * o.friction ^ (1 : ℝ) *
      ((animateDot o width height m 1 r1 r2 d).vx * o.friction ^ (1 : ℝ)) +
      (animateDot o width height m 1 r1 r2 d).vy * o.friction ^ (1 : ℝ) *
      ((animateDot o width height m 1 r1 r2 d).vy * o.friction ^ (1 : ℝ))
        > o.maxSpeed * o.maxSpeed) := by
    rw [hp1, h1vx, h1vy, hp1]
    push_neg
    have expand : d.vx * o.friction * o.friction * (d.vx * o.friction * o.friction) +
        d.vy * o.friction * o.friction * (d.vy * o.friction * o.friction)
        = (d.vx * d.vx + d.vy * d.vy) *
          ((o.friction * o.friction) * (o.friction * o.friction)) := by ring
    rw [expand]
    exact decay_two_le d.vx d.vy o.friction o.maxSpeed hv hf0 hf1
  obtain ⟨_, _, h1vx2, h1vy2, _⟩ :=
    animateDot_eval_inactive o width height m 1 r3 r4
      (animateDot o width height m 1 r1 r2 d) hre hrf hcl1b
  rw [h2vx, h2vy, h1vx2, h1vy2, h1vx, h1vy, hp1, hp2]
  constructor <;> ring

/-- C1 is false as stated: with jitter and cursor influence off, and the
default friction `0.97`, a unit-velocity dot integrates to `x = 1.8818`
in one `dt = 2` step but to `x = 1.9109` in two `dt = 1` steps — a gap
of `0.0291`, far beyond floating-point tolerance, because explicit Euler
integration of the position is not invariant to subdividing `dt`. -/
theorem step_subdivision_counterexample :
    (animateDot { defaultOptions with reactive := false, randomFactor := 0 } 100 100
        ⟨0, 0, 0, 0, false⟩ 2 0.5 0.5 ⟨0, 0, 0, 1, 1, 1, 0, 1, none, none⟩).x = 1.8818 ∧
    (animateDot { defaultOptions with reactive := false, randomFactor := 0 } 100 100
        ⟨0, 0, 0, 0, false⟩ 1 0.5 0.5
        (animateDot { defaultOptions with reactive := false, randomFactor := 0 } 100 100
          ⟨0, 0, 0, 0, false⟩ 1 0.5 0.5 ⟨0, 0, 0, 1, 1, 1, 0, 1, none, none⟩)).x = 1.9109 ∧
    (1.9109 : ℝ) - 1.8818 = 0.0291 ∧ (0.0291 : ℝ) > 1 / 100 := by
  set o1 : Options := { defaultOptions with reactive := false, randomFactor := 0 } with ho1
  set m0 : Mouse := ⟨0, 0, 0, 0, false⟩ with hm0
  set d0 : Dot := ⟨0, 0, 0, 1, 1, 1, 0, 1, none, none⟩ with hd0
  have hre : o1.reactive = false := rfl
  have hrf : o1.randomFactor = 0 := rfl
  have hfr : o1.friction = 0.97 := rfl
  have hM : o1.maxSpeed = 3 := rfl
  have hp2 : o1.friction ^ (2 : ℝ) = 0.9409 := by
    rw [hfr, rpow_two_eq]
    norm_num
  have hp1 : o1.friction ^ (1 : ℝ) = 0.97 := by
    rw [hfr, Real.rpow_one]
  have hx0 : d0.x = 0 := rfl
  have hvx0 : d0.vx = 1 := rfl
  have hvy0 : d0.vy = 0 := rfl
  have hsm0 : d0.speedMultiplier = 1 := rfl
  have hcl2 : ¬ (d0.vx * o1.friction ^ (2 : ℝ) * (d0.vx * o1.friction ^ (2 : ℝ)) +
      d0.vy * o1.friction ^ (2 : ℝ) * (d0.vy * o1.friction ^ (2 : ℝ))
        > o1.maxSpeed * o1.maxSpeed) := by
    rw [hvx0, hvy0, hM, hp2]
    norm_num
  have hcl1 : ¬ (d0.vx * o1.friction ^ (1 : ℝ) * (d0.vx * o1.friction ^ (1 : ℝ)) +
      d0.vy * o1.friction ^ (1 : ℝ) * (d0.vy * o1.friction ^ (1 : ℝ))
        > o1.maxSpeed * o1.maxSpeed) := by
    rw [hvx0, hvy0, hM, hp1]
    norm_num
  obtain ⟨ex2, _, _, _, _⟩ := animateDot_eval_inactive o1 100 100 m0 2 0.5 0.5 d0 hre hrf hcl2
  obtain ⟨ex1, _, v1x, v1y, sm1⟩ :=
    animateDot_eval_inactive o1 100 100 m0 1 0.5 0.5 d0 hre hrf hcl1
  have hd1x : (animateDot o1 100 100 m0 1 0.5 0.5 d0).x = 0.97 := by
    rw [ex1, hx0, hvx0, hsm0, hp1]
    have : (0 : ℝ) + 1 * 0.97 * 1 * 1 = 0.97 := by norm_num
    rw [this]
    exact wrapCoord_id 100 0.97 (by norm_num) (by norm_num)
  have hd1vx : (animateDot o1 100 100 m0 1 0.5 0.5 d0).vx = 0.97 := by
    rw [v1x, hvx0, hp1]
    norm_num
  have hd1vy : (animateDot o1 100 100 m0 1 0.5 0.5 d0).vy = 0 := by
    rw [v1y, hvy0, hp1]
    norm_num
  have hd1sm : (animateDot o1 100 100 m0 1 0.5 0.5 d0).speedMultiplier = 1 := by
    rw [sm1, hsm0]
  have hcl1b : ¬ ((animateDot o1 100 100 m0 1 0.5 0.5 d0).vx * o1.friction ^ (1 : ℝ) *
      ((animateDot o1 100 100 m0 1 0.5 0.5 d0).vx * o1.friction ^ (1 : ℝ)) +
      (animateDot o1 100 100 m0 1 0.5 0.5 d0).vy * o1.friction ^ (1 : ℝ) *
      ((animateDot o1 100 100 m0 1 0.5 0.5 d0).vy * o1.friction ^ (1 : ℝ))
        > o1.maxSpeed * o1.maxSpeed) := by
    rw [hd1vx, hd1vy, hM, hp1]
    norm_num
  obtain ⟨ex12, _, _, _, _⟩ :=
    animateDot_eval_inactive o1 100 100 m0 1 0.5 0.5
      (animateDot o1 100 100 m0 1 0.5 0.5 d0) hre hrf hcl1b
  refine ⟨?_, ?_, by norm_num, by norm_num⟩
  · rw [ex2, hx0, hvx0, hsm0, hp2]
    have : (0 : ℝ) + 1 * 0.9409 * 1 * 2 = 1.8818 := by norm_num
    rw [this]
    exact wrapCoord_id 100 1.8818 (by norm_num) (by norm_num)
  · rw [ex12, hd1x, hd1vx, hd1sm, hp1]
    have : (0.97 : ℝ) + 0.97 * 0.97 * 1 * 1 = 1.9109 := by norm_num
    rw [this]
    exact wrapCoord_id 100 1.9109 (by norm_num) (by norm_num)

theorem velocity_subdivision_invariant_witness :
    ({ defaultOptions with reactive := false, randomFactor := 0 } : Options).reactive = false ∧
    ({ defaultOptions with reactive := false, randomFactor := 0 } : Options).randomFactor = 0 ∧
    (0 : ℝ) ≤ ({ defaultOptions with reactive := false, randomFactor := 0 } : Options).friction ∧
    ({ defaultOptions with reactive := false, randomFactor := 0 } : Options).friction ≤ 1 ∧
    ((⟨0, 0, 0, 1, 1, 1, 0, 1, none, none⟩ : Dot).vx * (⟨0, 0, 0, 1, 1, 1, 0, 1, none, none⟩ : Dot).vx +
        (⟨0, 0, 0, 1, 1, 1, 0, 1, none, none⟩ : Dot).vy * (⟨0, 0, 0, 1, 1, 1, 0, 1, none, none⟩ : Dot).vy
      ≤ ({ defaultOptions with reactive := false, randomFactor := 0 } : Options).maxSpeed *
        ({ defaultOptions with reactive := false, randomFactor := 0 } : Options).maxSpeed) ∧
    ((animateDot { defaultOptions with reactive := false, randomFactor := 0 } 100 100
        ⟨0, 0, 0, 0, false⟩ 2 0.5 0.5 ⟨0, 0, 0, 1, 1, 1, 0, 1, none, none⟩).vx
      = (animateDot { defaultOptions with reactive := false, randomFactor := 0 } 100 100
          ⟨0, 0, 0, 0, false⟩ 1 0.5 0.5
          (animateDot { defaultOptions with reactive := false, randomFactor := 0 } 100 100
            ⟨0, 0, 0, 0, false⟩ 1 0.5 0.5 ⟨0, 0, 0, 1, 1, 1, 0, 1, none, none⟩)).vx ∧
     (animateDot { defaultOptions with reactive := false, randomFactor := 0 } 100 100
        ⟨0, 0, 0, 0, false⟩ 2 0.5 0.5 ⟨0, 0, 0, 1, 1, 1, 0, 1, none, none⟩).vy
      = (animateDot { defaultOptions with reactive := false, randomFactor := 0 } 100 100
          ⟨0, 0, 0, 0, false⟩ 1 0.5 0.5
          (animateDot { defaultOptions with reactive := false, randomFactor := 0 } 100 100
            ⟨0, 0, 0, 0, false⟩ 1 0.5 0.5 ⟨0, 0, 0, 1, 1, 1, 0, 1, none, none⟩)).vy) :=
  ⟨rfl, rfl, by norm_num [defaultOptions], by norm_num [defaultOptions],
    by norm_num [defaultOptions],
    velocity_subdivision_invariant { defaultOptions with reactive := false, randomFactor := 0 }
      100 100 ⟨0, 0, 0, 0, false⟩ 0.5 0.5 0.5 0.5 ⟨0, 0, 0, 1, 1, 1, 0, 1, none, none⟩
      rfl rfl (by norm_num [defaultOptions]) (by norm_num [defaultOptions])
      (by norm_num [defaultOptions])⟩

/-! ## Color resolution -/

theorem replaceFirst_close (repl : List Char) (l tail : List Char) (hl : ')' ∉ l) :
    replaceFirstList [')'] repl (l ++ ')' :: tail) = l ++ repl ++ tail := by
  induction l with
  | nil => simp [replaceFirstList, List.isPrefixOf]
  | cons c cs ih =>
    simp only [List.mem_cons, not_or] at hl
    have hbeq : ((')' : Char) == c) = false := beq_eq_false_iff_ne.mpr hl.1
    simp only [List.cons_append, replaceFirstList, List.isPrefixOf, hbeq, Bool.false_and,
      Bool.false_eq_true, if_false, List.append_eq, ih hl.2]

/-- C7 is false as stated: an input already in `rgba(...)` form is
returned unchanged, so the per-point alpha `0.5` does not override the
alpha `0.9` the input encodes. -/
theorem getRGBA_rgba_counterexample :
    _getRGBA "rgba(255, 0, 0, 0.9)" "0.5" = "rgba(255, 0, 0, 0.9)" ∧
    _getRGBA "rgba(255, 0, 0, 0.9)" "0.5" ≠ "rgba(255, 0, 0, 0.5)" := by
  exact ⟨rfl, by decide⟩

/-- C7 (amended): for named colors, hex colors (3- and 6-digit) and
`rgb(...)` inputs, `_getRGBA` produces an `rgba` string whose alpha
component is the supplied per-point alpha; an input already in `rgba(...)`
form, however, is returned verbatim, keeping whatever alpha it already
encoded. -/
theorem getRGBA_alpha_carried (a s tail : String) (c1 c2 c3 c4 c5 c6 : Char)
    (v1 v2 v3 v4 v5 v6 : ℕ)
    (hs : ')' ∉ s.data)
    (h1 : hexDigitVal c1 = some v1) (h2 : hexDigitVal c2 = some v2)
    (h3 : hexDigitVal c3 = some v3) (h4 : hexDigitVal c4 = some v4)
    (h5 : hexDigitVal c5 = some v5) (h6 : hexDigitVal c6 = some v6) :
    _getRGBA "white" a = "rgba(255, 255, 255, " ++ a ++ ")" ∧
    _getRGBA "black" a = "rgba(0, 0, 0, " ++ a ++ ")" ∧
    _getRGBA "red" a = "rgba(255, 0, 0, " ++ a ++ ")" ∧
    _getRGBA "green" a = "rgba(0, 128, 0, " ++ a ++ ")" ∧
    _getRGBA "blue" a = "rgba(0, 0, 255, " ++ a ++ ")" ∧
    _getRGBA ("rgb(" ++ s ++ ")") a = "rgba(" ++ s ++ ", " ++ a ++ ")" ∧
    _getRGBA ("#" ++ (⟨[c1, c2, c3, c4, c5, c6]⟩ : String)) a
      = "rgba(" ++ toString (16 * v1 + v2) ++ ", " ++ toString (16 * v3 + v4) ++ ", "
        ++ toString (16 * v5 + v6) ++ ", " ++ a ++ ")" ∧
    _getRGBA ("#" ++ (⟨[c1, c2, c3]⟩ : String)) a
      = "rgba(" ++ toString (16 * v1 + v1) ++ ", " ++ toString (16 * v2 + v2) ++ ", "
        ++ toString (16 * v3 + v3) ++ ", " ++ a ++ ")" ∧
    _getRGBA ("rgba" ++ tail) a = "rgba" ++ tail := by
  refine ⟨rfl, rfl, rfl, rfl, rfl, ?_, ?_, ?_, ?_⟩
  · show jsReplace (jsReplace ("rgb(" ++ s ++ ")") "rgb" "rgba") ")" (", " ++ a ++ ")")
      = "rgba(" ++ s ++ ", " ++ a ++ ")"
    have step1 : jsReplace ("rgb(" ++ s ++ ")") "rgb" "rgba"
        = ⟨['r', 'g', 'b', 'a', '('] ++ (s.data ++ [')'])⟩ := rfl
    rw [step1]
    show (⟨replaceFirstList [')'] (", " ++ a ++ ")").data
      (['r', 'g', 'b', 'a', '('] ++ (s.data ++ [')']))⟩ : String) = _
    have harr : ['r', 'g', 'b', 'a', '('] ++ (s.data ++ [')'])
        = (['r', 'g', 'b', 'a', '('] ++ s.data) ++ ')' :: [] := by simp
    rw [harr, replaceFirst_close (", " ++ a ++ ")").data
      (['r', 'g', 'b', 'a', '('] ++ s.data) [] (by simpa using hs)]
    show String.mk _ = String.mk _
    simp [String.data_append]
  · show ("rgba(" : String) ++ jsNumStr (jsParseIntHex ⟨[c1, c2]⟩) ++ ", "
        ++ jsNumStr (jsParseIntHex ⟨[c3, c4]⟩) ++ ", "
        ++ jsNumStr (jsParseIntHex ⟨[c5, c6]⟩) ++ ", " ++ a ++ ")" = _
    have p1 : jsParseIntHex ⟨[c1, c2]⟩ = some (16 * v1 + v2) := by
      simp [jsParseIntHex, parseHexRest, h1, h2]
    have p2 : jsParseIntHex ⟨[c3, c4]⟩ = some (16 * v3 + v4) := by
      simp [jsParseIntHex, parseHexRest, h3, h4]
    have p3 : jsParseIntHex ⟨[c5, c6]⟩ = some (16 * v5 + v6) := by
      simp [jsParseIntHex, parseHexRest, h5, h6]
    rw [p1, p2, p3]
    rfl
  · show ("rgba(" : String) ++ jsNumStr (jsParseIntHex (jsCharAt ⟨[c1, c2, c3]⟩ 0 ++ jsCharAt ⟨[c1, c2, c3]⟩ 0)) ++ ", "
        ++ jsNumStr (jsParseIntHex (jsCharAt ⟨[c1, c2, c3]⟩ 1 ++ jsCharAt ⟨[c1, c2, c3]⟩ 1)) ++ ", "
        ++ jsNumStr (jsParseIntHex (jsCharAt ⟨[c1, c2, c3]⟩ 2 ++ jsCharAt ⟨[c1, c2, c3]⟩ 2)) ++ ", " ++ a ++ ")" = _
    have p1 : jsParseIntHex (jsCharAt ⟨[c1, c2, c3]⟩ 0 ++ jsCharAt ⟨[c1, c2, c3]⟩ 0)
        = some (16 * v1 + v1) := by
      simp [jsParseIntHex, jsCharAt, parseHexRest, h1]
    have p2 : jsParseIntHex (jsCharAt ⟨[c1, c2, c3]⟩ 1 ++ jsCharAt ⟨[c1, c2, c3]⟩ 1)
        = some (16 * v2 + v2) := by
      simp [jsParseIntHex, jsCharAt, parseHexRest, h2]
    have p3 : jsParseIntHex (jsCharAt ⟨[c1, c2, c3]⟩ 2 ++ jsCharAt ⟨[c1, c2, c3]⟩ 2)
        = some (16 * v3 + v3) := by
      simp [jsParseIntHex, jsCharAt, parseHexRest, h3]
    rw [p1, p2, p3]
    rfl
  · have hc : jsStartsWith ("rgba" ++ tail) "rgba" = true := by
      simp [jsStartsWith, List.isPrefixOf, String.data_append]
    simp [_getRGBA, hc]

theorem getRGBA_alpha_carried_witness :
    ')' ∉ ("12, 34, 56" : String).data ∧
    hexDigitVal '0' = some 0 ∧ hexDigitVal '1' = some 1 ∧ hexDigitVal '2' = some 2 ∧
    hexDigitVal '3' = some 3 ∧ hexDigitVal '4' = some 4 ∧ hexDigitVal '5' = some 5 ∧
    (_getRGBA "white" "0.5" = "rgba(255, 255, 255, " ++ "0.5" ++ ")" ∧
     _getRGBA "black" "0.5" = "rgba(0, 0, 0, " ++ "0.5" ++ ")" ∧
     _getRGBA "red" "0.5" = "rgba(255, 0, 0, " ++ "0.5" ++ ")" ∧
     _getRGBA "green" "0.5" = "rgba(0, 128, 0, " ++ "0.5" ++ ")" ∧
     _getRGBA "blue" "0.5" = "rgba(0, 0, 255, " ++ "0.5" ++ ")" ∧
     _getRGBA ("rgb(" ++ "12, 34, 56" ++ ")") "0.5"
       = "rgba(" ++ "12, 34, 56" ++ ", " ++ "0.5" ++ ")" ∧
     _getRGBA ("#" ++ (⟨['0', '1', '2', '3', '4', '5']⟩ : String)) "0.5"
       = "rgba(" ++ toString (16 * 0 + 1) ++ ", " ++ toString (16 * 2 + 3) ++ ", "
         ++ toString (16 * 4 + 5) ++ ", " ++ "0.5" ++ ")" ∧
     _getRGBA ("#" ++ (⟨['0', '1', '2']⟩ : String)) "0.5"
       = "rgba(" ++ toString (16 * 0 + 0) ++ ", " ++ toString (16 * 1 + 1) ++ ", "
         ++ toString (16 * 2 + 2) ++ ", " ++ "0.5" ++ ")" ∧
     _getRGBA ("rgba" ++ "(1, 2, 3, 0.9)") "0.5" = "rgba" ++ "(1, 2, 3, 0.9)") :=
  ⟨by decide, rfl, rfl, rfl, rfl, rfl, rfl,
    getRGBA_alpha_carried "0.5" "12, 34, 56" "(1, 2, 3, 0.9)" '0' '1' '2' '3' '4' '5'
      0 1 2 3 4 5 (by decide) rfl rfl rfl rfl rfl rfl⟩

/-! ## Invalid numeric configuration -/

/-- C8 is false as stated: `_mergeOptions` performs no validation at
merge time — a zero `influenceRadius` and a negative `numDots` pass
through into the merged configuration verbatim, neither rejected nor
altered. -/
theorem mergeOptions_no_validation_counterexample :
    (_mergeOptions JsVal defaultsList
        (fun k => if k = "influenceRadius" then some (.num 0)
          else if k = "numDots" then some (.num (-5)) else none)).lookup "influenceRadius"
      = some (JsVal.num 0) ∧
    (_mergeOptions JsVal defaultsList
        (fun k => if k = "influenceRadius" then some (.num 0)
          else if k = "numDots" then some (.num (-5)) else none)).lookup "numDots"
      = some (JsVal.num (-5)) := by
  constructor <;> rfl

/-- C8 (amended): no validation happens at option-merge time — invalid
numeric values survive the merge verbatim (see the counterexample).
Nevertheless a zero `influenceRadius` cannot divide by zero or inject NaN
into the state: the strict guard `distanceSq < influenceRadius²` never
holds, so the cursor-influence phase is the identity, and a negative
`numDots` simply yields an empty field. -/
theorem zero_radius_feature_disabled (o : Options) (m : Mouse) (dt : ℝ) (d : Dot)
    (width height : ℝ) (draw : ℕ → Draw)
    (hr : o.influenceRadius = 0) (hn : o.numDots ≤ 0) :
    applyInfluence o m dt d = d ∧ _createDots o width height draw = [] := by
  constructor
  · simp only [applyInfluence, hr]
    split_ifs with h1 h2
    · exfalso
      nlinarith [mul_self_nonneg (m.mouseX - d.x), mul_self_nonneg (m.mouseY - d.y), h2]
    · rfl
    · rfl
  · have h0 : o.numDots.toNat = 0 := Int.toNat_of_nonpos hn
    simp [_createDots, h0]

theorem zero_radius_feature_disabled_witness :
    ({ defaultOptions with influenceRadius := 0, numDots := -5 } : Options).influenceRadius
      = 0 ∧
    ({ defaultOptions with influenceRadius := 0, numDots := -5 } : Options).numDots ≤ 0 ∧
    (applyInfluence { defaultOptions with influenceRadius := 0, numDots := -5 }
        ⟨3, 4, 2, 2, true⟩ 1 ⟨3, 4, 0.5, 2, 0.75, 1, 1, 0.65, none, none⟩
      = ⟨3, 4, 0.5, 2, 0.75, 1, 1, 0.65, none, none⟩ ∧
     _createDots { defaultOptions with influenceRadius := 0, numDots := -5 } 100 100
        (fun _ => ⟨0.5, 0.5, 0.5, 0.5, 0.5⟩) = []) :=
  ⟨rfl, by norm_num,
    zero_radius_feature_disabled { defaultOptions with influenceRadius := 0, numDots := -5 }
      ⟨3, 4, 2, 2, true⟩ 1 ⟨3, 4, 0.5, 2, 0.75, 1, 1, 0.65, none, none⟩ 100 100
      (fun _ => ⟨0.5, 0.5, 0.5, 0.5, 0.5⟩) rfl (by norm_num)⟩

/-! ## Option merging -/

/-- C10: `_mergeOptions` is key-closed: the merged list has exactly the
defaults' keys in order, each key maps to the user's value when defined and
to the default otherwise, and a user key absent from the defaults never
appears in the result. -/
theorem mergeOptions_key_closed (V : Type) (defaults : List (String × V))
    (options : String → Option V) :
    ((_mergeOptions V defaults options).map Prod.fst = defaults.map Prod.fst) ∧
    (∀ k v, (k, v) ∈ _mergeOptions V defaults options ↔
      ∃ dv, (k, dv) ∈ defaults ∧ v = (options k).getD dv) ∧
    (∀ k v, k ∉ defaults.map Prod.fst → (k, v) ∉ _mergeOptions V defaults options) := by
  have hkeys : (_mergeOptions V defaults options).map Prod.fst = defaults.map Prod.fst := by
    simp [_mergeOptions, List.map_map, Function.comp]
  refine ⟨hkeys, ?_, ?_⟩
  · intro k v
    constructor
    · intro hmem
      rcases List.mem_map.mp hmem with ⟨⟨k0, dv⟩, hin, heq⟩
      simp only [Prod.mk.injEq] at heq
      obtain ⟨h1, h2⟩ := heq
      subst h1
      exact ⟨dv, hin, h2.symm⟩
    · rintro ⟨dv, hin, rfl⟩
      exact List.mem_map.mpr ⟨(k, dv), hin, rfl⟩
  · intro k v hk hmem
    apply hk
    have : Prod.fst (k, v) ∈ (_mergeOptions V defaults options).map Prod.fst :=
      List.mem_map_of_mem Prod.fst hmem
    rwa [hkeys] at this

end DotWave
